import Mathlib

/-!
Shallow embedding of the replica-placement scheduler and the disk-pool
operator of the mayastor control plane, together with proofs checking the
natural-language specification against the code.

The definitions below are translated from the Rust source:
* `control-plane/agents/src/bin/core/controller/scheduling/mod.rs`
* `control-plane/agents/src/bin/core/controller/scheduling/volume_policy/pool.rs`
* `control-plane/agents/src/bin/core/controller/scheduling/volume_policy/mod.rs`
* `control-plane/stor-port/src/types/v0/transport/pool.rs`
* `k8s/operators/src/pool/context.rs`

Rust `HashMap<String, String>` values are modelled as association lists with
a first-match lookup; `u64` quantities are modelled as `Nat` (the claims
under scrutiny are stated under exact integer arithmetic).  Registry
accessors used by the filters (`volume_data_nodes`, `specs().node`,
`specs().pool`) are modelled as data carried by a `Registry` record: the
filters only consume their results.
-/

namespace Mayastor

/-- Opaque node identifier (`NodeId`); equality is byte-exact. -/
abbrev NodeId := String

/-- Opaque pool identifier (`PoolId`); equality is byte-exact. -/
abbrev PoolId := String

/-- A string-keyed label map (`HashMap<String, String>` in the source),
modelled as an association list with first-match lookup. -/
abbrev Labels := List (String × String)

/-- `map.get(k)` on a label map. -/
def labelsGet (ls : Labels) (k : String) : Option String :=
  match ls.find? (fun kv => kv.1 == k) with
  | some kv => some kv.2
  | none => none

/-- `map.contains_key(k)` on a label map. -/
def labelsContainsKey (ls : Labels) (k : String) : Bool :=
  ls.any (fun kv => kv.1 == k)

/-- Pool status (`PoolStatus` in `stor-port/src/types/v0/transport/pool.rs`,
deriving `Eq, PartialEq` in the source). -/
inductive PoolStatus where
  | unknown
  | online
  | degraded
  | faulted
deriving DecidableEq, BEq, Repr

/-- The hand-written `impl PartialOrd for PoolStatus` from
`stor-port/src/types/v0/transport/pool.rs` (lines 124-153), translated
arm by arm. -/
def PoolStatus.partialCmp : PoolStatus → PoolStatus → Option Ordering
  | .unknown, other =>
    match other with
    | .unknown => none
    | .online => some .lt
    | .degraded => some .lt
    | .faulted => none
  | .online, other =>
    match other with
    | .unknown => some .gt
    | .online => some .eq
    | .degraded => some .gt
    | .faulted => some .gt
  | .degraded, other =>
    match other with
    | .unknown => some .gt
    | .online => some .lt
    | .degraded => some .eq
    | .faulted => some .gt
  | .faulted, other =>
    match other with
    | .unknown => none
    | .online => some .lt
    | .degraded => some .lt
    | .faulted => some .eq

/-- Node topology of a volume (`NodeTopology` in stor-port): either label
based (`Labelled` with inclusion and exclusion maps) or an explicit list of
allowed nodes (`Explicit`). -/
inductive NodeTopology where
  | labelled (inclusion : Labels) (exclusion : Labels)
  | explicit (allowedNodes : List NodeId)
deriving DecidableEq

/-- Pool topology of a volume (`PoolTopology` in stor-port): label based. -/
inductive PoolTopology where
  | labelled (inclusion : Labels) (exclusion : Labels)
deriving DecidableEq

/-- A volume topology constraint: independent node and pool dimensions. -/
structure Topology where
  node : Option NodeTopology
  pool : Option PoolTopology
deriving DecidableEq

/-- A node spec as stored in the registry (`NodeSpec`): its id and labels.
The scheduler reads `spec.labels` as a plain map. -/
structure NodeSpec where
  id : NodeId
  labels : Labels
deriving DecidableEq

/-- A pool spec as stored in the registry (`PoolSpec`): its id and its
optional label map (`labels: Option<PoolLabel>`). -/
structure PoolSpecR where
  id : PoolId
  labels : Option Labels
deriving DecidableEq

/-- The slice of the registry the scheduling filters read.
`volumeDataNodes` is the result of
`registry.specs().volume_data_nodes(&request.uuid)` for the request's
volume: the set of nodes currently holding a replica owned by it. -/
structure Registry where
  nodeSpecs : List NodeSpec
  poolSpecs : List PoolSpecR
  volumeDataNodes : List NodeId
deriving DecidableEq

/-- `registry.specs().node(id)`: `Ok(spec)` becomes `some`, `Err` becomes
`none`. -/
def Registry.node (r : Registry) (id : NodeId) : Option NodeSpec :=
  r.nodeSpecs.find? (fun s => s.id == id)

/-- `registry.specs().pool(id)`: `Ok(spec)` becomes `some`, `Err` becomes
`none`. -/
def Registry.pool (r : Registry) (id : PoolId) : Option PoolSpecR :=
  r.poolSpecs.find? (fun s => s.id == id)

/-- The replica being moved (`move_repl`): its current node and pool. -/
structure MoveRepl where
  node : NodeId
  pool : PoolId
deriving DecidableEq

/-- The pool state carried by a `PoolItem` candidate (`PoolItem.pool`,
a `PoolWrapper`): owning node, id, status and the byte quantities the
filters read.  `committed` is the value of `commitment()` (per the spec,
the accrued size of the pool's replicas) and `freeSpace` the value of
`free_space()`. -/
structure PoolItemPool where
  node : NodeId
  id : PoolId
  status : PoolStatus
  capacity : Nat
  committed : Nat
  freeSpace : Nat
deriving DecidableEq

/-- A candidate item for pool selection (`PoolItem`). -/
structure PoolItem where
  pool : PoolItemPool
deriving DecidableEq

/-- A candidate item for node selection (`NodeItem`); the filters under
scrutiny only read the wrapped node's id. -/
structure NodeItem where
  nodeId : NodeId
deriving DecidableEq

/-- The context of a `GetSuitablePools` request (`GetSuitablePoolsContext`):
requested replica size, provisioning mode (`as_thin()`), the optional
moving replica, the volume topology and the registry slice. -/
structure GetSuitablePoolsContext where
  size : Nat
  thin : Bool
  moveRepl : Option MoveRepl
  topology : Option Topology
  registry : Registry
deriving DecidableEq

/-- The context of a `GetSuitableNodes` request (`GetSuitableNodesContext`):
the volume topology and the registry slice. -/
structure GetSuitableNodesContext where
  topology : Option Topology
  registry : Registry
deriving DecidableEq

/-- `NodeFilters::unused` (scheduling/mod.rs lines 171-180): nodes not
currently used by the volume; when moving a replica the current replica
node is allowed to be reused for a different pool. -/
def NodeFilters.unused (request : GetSuitablePoolsContext) (item : PoolItem) : Bool :=
  let exception :=
    match request.moveRepl with
    | some moving => moving.node == item.pool.node && moving.pool != item.pool.id
    | none => false
  if exception then true
  else !(request.registry.volumeDataNodes.contains item.pool.node)

/-- `does_node_qualify_inclusion_labels` (scheduling/mod.rs lines 280-302):
true iff every key of the volume's inclusion labels is carried by the node
with the very same value. -/
def does_node_qualify_inclusion_labels (volIncLabels : Labels) (nodeLabels : Labels) : Bool :=
  volIncLabels.all fun kv =>
    match labelsGet nodeLabels kv.1 with
    | some nodeVal => nodeVal == kv.2
    | none => false

/-- The outcome of evaluating a filter that may panic: the `Explicit` arm
of `NodeFilters::topology` is `todo!()` in the source, which aborts
instead of returning a boolean; it is embedded as the error case. -/
inductive FilterPanic where
  | todoUnimplemented
deriving DecidableEq

/-- `NodeFilters::topology` (scheduling/mod.rs lines 215-268), translated
branch by branch.  Note that the exclusion check of the source is commented
out: after the shared-key and emptiness checks only
`does_node_qualify_inclusion_labels` is consulted. -/
def NodeFilters.topology (request : GetSuitableNodesContext) (item : NodeItem) :
    Except FilterPanic Bool :=
  match request.topology with
  | none => .ok true
  | some topology =>
    match topology.node with
    | none => .ok true
    | some (.labelled inclusion exclusion) =>
      if inclusion.any (fun kv => labelsContainsKey exclusion kv.1) then
        .ok false
      else if !inclusion.isEmpty || !exclusion.isEmpty then
        match request.registry.node item.nodeId with
        | some spec => .ok (does_node_qualify_inclusion_labels inclusion spec.labels)
        | none => .ok false
      else
        .ok true
    | some (.explicit _) => .error .todoUnimplemented

/-- Boolean acceptance of the node topology filter as used by the pipeline
`filter` combinator: a candidate is retained when the filter returns
`true`. -/
def acceptsNode (request : GetSuitableNodesContext) (item : NodeItem) : Bool :=
  match NodeFilters.topology request item with
  | .ok true => true
  | _ => false

/-- `PoolBaseFilters::overcommit` (volume_policy/pool.rs lines 17-29):
thin requests must satisfy
`(request.size + commitment) * 100 < allowed_commit_percent * capacity`;
thick requests pass trivially. -/
def PoolBaseFilters.overcommit (request : GetSuitablePoolsContext) (item : PoolItem)
    (allowedCommitPercent : Nat) : Bool :=
  match request.thin with
  | true =>
    let maxCapAllowed := allowedCommitPercent * item.pool.capacity
    decide ((request.size + item.pool.committed) * 100 < maxCapAllowed)
  | false => true

/-- `PoolBaseFilters::topology` (volume_policy/pool.rs lines 54-91),
translated branch by branch: a non-empty inclusion map requires the pool
spec to exist in the registry, carry labels, and match every inclusion
entry (an empty requested value is a presence-only wildcard). -/
def PoolBaseFilters.topology (request : GetSuitablePoolsContext) (item : PoolItem) : Bool :=
  match request.topology with
  | none => true
  | some topology =>
    match topology.pool with
    | none => true
    | some (.labelled inclusion _exclusion) =>
      if !inclusion.isEmpty then
        match request.registry.pool item.pool.id with
        | some spec =>
          match spec.labels with
          | none => false
          | some label =>
            inclusion.all fun kv =>
              match labelsGet label kv.1 with
              | some poolValue => kv.2 == "" || poolValue == kv.2
              | none => false
        | none => false
      else
        true

/-- Persisted child information read by the sorters (`ChildInfo`): only the
`healthy` flag is consulted here. -/
structure ChildInfo where
  healthy : Bool
deriving DecidableEq

/-- A nexus child candidate (`ChildItem`) as read by
`AddReplicaSorters::sort`: the replica state's node (`state().node`), the
optional persisted child info (`info()`), and the free space of the
backing pool (`pool().free_space()`). -/
structure ChildItem where
  stateNode : NodeId
  info : Option ChildInfo
  poolFreeSpace : Nat
deriving DecidableEq

/-- The context of `VolumeReplicasForNexusCtx` as read by
`AddReplicaSorters::sort`: the nexus spec's node. -/
structure VolumeReplicasForNexusCtx where
  nexusNode : NodeId
deriving DecidableEq

/-- `AddReplicaSorters::sort` (scheduling/mod.rs lines 503-523), translated
branch by branch.  Its doc comment promises the order: 1. replicas local to
the nexus, 2. replicas not marked faulted, 3. replicas from pools with more
free space. -/
def AddReplicaSorters.sort (request : VolumeReplicasForNexusCtx) (a b : ChildItem) :
    Ordering :=
  let aIsLocal := a.stateNode == request.nexusNode
  let bIsLocal := b.stateNode == request.nexusNode
  match aIsLocal, bIsLocal with
  | true, false => .lt
  | false, true => .gt
  | _, _ =>
    let aHealthy := (a.info.map (fun i => i.healthy)).getD false
    let bHealthy := (b.info.map (fun i => i.healthy)).getD false
    match aHealthy, bHealthy with
    | true, false => .lt
    | false, true => .gt
    | _, _ => compare a.poolFreeSpace b.poolFreeSpace

/-! ## The disk-pool operator (`k8s/operators/src/pool/context.rs`) -/

/-- The `cr_state` field of a disk-pool CR status. -/
inductive CrPoolState where
  | creating
  | created
  | terminating
deriving DecidableEq, Repr

/-- Modelled from the spec: the CR status record `DiskPoolStatus` of the
`diskpool::v1beta1` module, whose definition is not part of the sources at
hand (only its callers are); per the spec it carries
`cr_state: Creating|Created|Terminating` and an observed
`pool_status: Unknown|Online|Degraded|Faulted`. -/
structure DiskPoolStatus where
  cr_state : CrPoolState
  pool_status : Option PoolStatus
deriving DecidableEq, Repr

/-- Modelled from the spec: `DiskPoolStatus::mark_unknown()` — missing from
the sources at hand — which per the spec marks `cr_state` as `Created` with
observed control-plane state `Unknown`. -/
def DiskPoolStatus.markUnknown : DiskPoolStatus :=
  { cr_state := .created, pool_status := some .unknown }

/-- Modelled from the spec: `DiskPoolStatus::from(Pool)` — missing from the
sources at hand — which per the spec marks `cr_state` as `Created` with the
observed pool state. -/
def DiskPoolStatus.fromPool (st : PoolStatus) : DiskPoolStatus :=
  { cr_state := .created, pool_status := some st }

/-- A reconciler action (`kube::runtime::controller::Action`): wait for a
resource change or requeue after the given number of seconds. -/
inductive Action where
  | awaitChange
  | requeue (seconds : Nat)
deriving DecidableEq, Repr

/-- A Kubernetes event as posted by `k8s_notify`: the `action`, `reason`,
`message` and `type_` arguments. -/
structure K8sEvent where
  action : String
  reason : String
  message : String
  type_ : String
deriving DecidableEq, Repr

/-- An error of the openapi tower client (`clients::tower::Error`): an HTTP
response with a status code, or a request/transport error. -/
inductive HttpErr where
  | response (code : Nat)
  | request
deriving DecidableEq, Repr

/-- An error propagated by a reconcile step: a remote error converted via
`error.into()` or a Kubernetes patch error. -/
inductive OpError where
  | http
  | kube
deriving DecidableEq, Repr

/-- A block device reported by `get_node_block_devices`. -/
structure BlockDevice where
  devname : String
  devlinks : List String

/-- A control-plane pool as returned by `get_node_pool`: the reconciler
only inspects the presence and value of its `state`. -/
structure CpPool where
  state : Option PoolStatus
deriving DecidableEq, Repr

/-- The environment of one `create_or_import` pass: the responses of the
outbound calls it may issue, the declared spec fields it reads, the
configured requeue interval, and whether the Kubernetes status patch
succeeds.  `normalizeDisk` stands for the `normalize_disk` URL-to-path
helper of `main.rs`. -/
structure CreateEnv where
  putPool : Except HttpErr Unit
  blockDevices : Except HttpErr (List BlockDevice)
  getPool : Except HttpErr CpPool
  disks : List String
  interval : Nat
  patchOk : Bool
  normalizeDisk : String → String

/-- The observable outcome of one `create_or_import` pass: the successful
CR status patches in order, the `k8s_notify` calls issued in order, and
the returned action or propagated error. -/
structure ReconcileOutcome where
  patches : List DiskPoolStatus
  events : List K8sEvent
  result : Except OpError Action

/-- The `Normal:Created` event posted after a successful `put_node_pool`. -/
def createdEvent : K8sEvent :=
  { action := "Create or Import", reason := "Created",
    message := "Created or imported pool", type_ := "Normal" }

/-- The `Normal:Online` event posted by `pool_created` when the fetched
pool has a state. -/
def onlineEvent : K8sEvent :=
  { action := "Online pool", reason := "Online",
    message := "Pool online and ready to roll!", type_ := "Normal" }

/-- `ResourceContext::pool_created` (context.rs lines 397-420): fetch the
pool; if it has a state, patch the status from it and post the online
event, else requeue after 3 seconds. -/
def pool_created (env : CreateEnv) : ReconcileOutcome :=
  match env.getPool with
  | .error _ => { patches := [], events := [], result := .error .http }
  | .ok pool =>
    match pool.state with
    | some st =>
      if env.patchOk then
        { patches := [DiskPoolStatus.fromPool st], events := [onlineEvent],
          result := .ok .awaitChange }
      else
        { patches := [], events := [], result := .error .kube }
    | none =>
      { patches := [], events := [], result := .ok (.requeue 3) }

/-- The failure-attribution branch of `create_or_import` (context.rs lines
281-346): on a non-422 error, query the node's block devices; if the first
declared disk is absent from the report emit `Warn:Missing`, on a 404 from
the block-device query emit `Critical` node-missing, otherwise emit
`Critical` failure; every arm propagates the original error. -/
def create_attribution (env : CreateEnv) : ReconcileOutcome :=
  let disk := env.normalizeDisk (env.disks.headD "")
  match env.blockDevices with
  | .ok devices =>
    if !devices.any (fun b => b.devname == disk || b.devlinks.any (fun d => d == disk)) then
      { patches := [],
        events := [{ action := "Create or import", reason := "Missing",
                     message := "The block device(s) can not be found", type_ := "Warn" }],
        result := .error .http }
    else
      { patches := [],
        events := [{ action := "Create or Import Failure", reason := "Failure",
                     message := "Unable to create or import pool", type_ := "Critical" }],
        result := .error .http }
  | .error (.response 404) =>
    { patches := [],
      events := [{ action := "Create or Import Failure", reason := "Failure",
                   message := "Unable to find io-engine node", type_ := "Critical" }],
      result := .error .http }
  | .error _ =>
    { patches := [],
      events := [{ action := "Create or Import Failure", reason := "Failure",
                   message := "Unable to create or import pool", type_ := "Critical" }],
      result := .error .http }

/-- `ResourceContext::create_or_import` (context.rs lines 254-358),
translated branch by branch: on success post `Normal:Created` and continue
with `pool_created`; on HTTP 422 mark the CR `Created` with observed state
`Unknown` and requeue after the configured interval; on any other error run
the failure-attribution branch. -/
def create_or_import (env : CreateEnv) : ReconcileOutcome :=
  match env.putPool with
  | .ok _ =>
    let rest := pool_created env
    { patches := rest.patches, events := createdEvent :: rest.events,
      result := rest.result }
  | .error (.response code) =>
    if code == 422 then
      if env.patchOk then
        { patches := [DiskPoolStatus.markUnknown], events := [],
          result := .ok (.requeue env.interval) }
      else
        { patches := [], events := [], result := .error .kube }
    else
      create_attribution env
  | .error .request => create_attribution env

/-- One `k8s_notify` call (context.rs lines 528-572) over the context's
event-dedup state (`event_info`, the list of previously posted messages):
when the message was already posted nothing happens, otherwise the message
is recorded and exactly one event is created. -/
def k8s_notify (eventInfo : List String) (action reason message type_ : String) :
    List String × List K8sEvent :=
  if eventInfo.contains message then
    (eventInfo, [])
  else
    (eventInfo ++ [message],
     [{ action := action, reason := reason, message := message, type_ := type_ }])

/-- The arguments of one `k8s_notify` call. -/
structure NotifyCall where
  action : String
  reason : String
  message : String
  type_ : String

/-- Run a sequence of `k8s_notify` calls within one context's lifetime,
threading the dedup state and collecting every event created. -/
def runNotify (eventInfo : List String) : List NotifyCall → List String × List K8sEvent
  | [] => (eventInfo, [])
  | c :: cs =>
    let step := k8s_notify eventInfo c.action c.reason c.message c.type_
    let rest := runNotify step.1 cs
    (rest.1, step.2 ++ rest.2)

/-! ## Theorems settling the claims -/

/-- C1: `NodeFilters::unused` accepts a candidate pool item iff the item's
node is not among the nodes currently holding a replica of the request's
volume (`volume_data_nodes`), with the single exception that a request
carrying a `move_repl` whose node equals the item's node and whose pool
differs from the item's pool is accepted. -/
theorem c1_unused_anti_affinity (request : GetSuitablePoolsContext) (item : PoolItem) :
    NodeFilters.unused request item = true ↔
      ((∃ moving, request.moveRepl = some moving ∧ moving.node = item.pool.node ∧
          moving.pool ≠ item.pool.id) ∨
        item.pool.node ∉ request.registry.volumeDataNodes) := by
  unfold NodeFilters.unused
  cases hm : request.moveRepl with
  | none => simp
  | some moving =>
    by_cases hex : (moving.node == item.pool.node && moving.pool != item.pool.id) = true
    · rw [if_pos hex]
      rw [Bool.and_eq_true] at hex
      constructor
      · intro _
        exact Or.inl ⟨moving, rfl, eq_of_beq hex.1, by simpa using hex.2⟩
      · intro _
        rfl
    · rw [if_neg hex]
      constructor
      · intro h
        exact Or.inr (by simpa using h)
      · rintro (⟨m, hm', hn, hp⟩ | hmem)
        · obtain rfl : moving = m := Option.some.inj hm'
          exact absurd (by simp [hn, hp]) hex
        · simpa using hmem

/-- C5: for thin requests `PoolBaseFilters::overcommit` accepts a pool iff
`(requested_size + committed) * 100 < allowed_commit_percent * capacity`
under exact integer arithmetic, and thick requests always pass — stated as
a single equivalence (a false antecedent is the thick case). -/
theorem c5_overcommit_bound (request : GetSuitablePoolsContext) (item : PoolItem)
    (allowedCommitPercent : Nat) :
    PoolBaseFilters.overcommit request item allowedCommitPercent = true ↔
      (request.thin = true →
        (request.size + item.pool.committed) * 100 <
          allowedCommitPercent * item.pool.capacity) := by
  unfold PoolBaseFilters.overcommit
  cases h : request.thin <;> simp

/-- C6 failing input: the hand-written `PartialOrd` on `PoolStatus` makes
`Unknown` incomparable with itself (`partial_cmp` returns `None`), even
though the derived `PartialEq` has `Unknown == Unknown`; the claim's
"every status equals itself" fails at `Unknown`. -/
theorem c6_unknown_not_self_equal :
    PoolStatus.partialCmp .unknown .unknown = none ∧
      (PoolStatus.unknown == PoolStatus.unknown) = true := by
  constructor <;> rfl

/-- C4 failing input: two child candidates equally non-local to the nexus
node and equally healthy, with pool free spaces 10 and 20:
`AddReplicaSorters::sort` places the candidate with LESS free space first
(it compares free space in ascending order), contradicting its own doc
comment and the claim that more free space sorts earlier. -/
theorem c4_less_free_space_sorts_first :
    AddReplicaSorters.sort { nexusNode := "node-0" }
        { stateNode := "node-1", info := some { healthy := true }, poolFreeSpace := 10 }
        { stateNode := "node-2", info := some { healthy := true }, poolFreeSpace := 20 } =
      .lt ∧
    AddReplicaSorters.sort { nexusNode := "node-0" }
        { stateNode := "node-2", info := some { healthy := true }, poolFreeSpace := 20 }
        { stateNode := "node-1", info := some { healthy := true }, poolFreeSpace := 10 } =
      .gt := by
  constructor <;> rfl

/-- Registry for the C2 failing input: one node carrying the label
`zone=eu`. -/
def c2Registry : Registry :=
  { nodeSpecs := [{ id := "node-a", labels := [("zone", "eu")] }],
    poolSpecs := [], volumeDataNodes := [] }

/-- C2 failing input: a request with empty inclusion and exclusion
`zone=eu` (no shared keys). -/
def c2Request : GetSuitableNodesContext :=
  { topology := some { node := some (.labelled [] [("zone", "eu")]), pool := none },
    registry := c2Registry }

/-- C2 failing input: the candidate node carries the excluded pair
`zone=eu` and satisfies the (empty) inclusion labels, yet
`NodeFilters::topology` accepts it — the source's exclusion check is
commented out, so exclusion labels are never enforced. -/
theorem c2_excluded_node_accepted :
    NodeFilters.topology c2Request { nodeId := "node-a" } = .ok true := by
  rfl

/-- C3: when the `Labelled` node topology has a key present in both the
inclusion and the exclusion map, `NodeFilters::topology` returns false for
the candidate, and filtering any candidate list by it yields the empty
list. -/
theorem c3_conflicting_keys_reject (request : GetSuitableNodesContext) (item : NodeItem)
    (inclusion exclusion : Labels)
    (ht : ∃ t, request.topology = some t ∧ t.node = some (.labelled inclusion exclusion))
    (hk : ∃ k, labelsContainsKey inclusion k = true ∧ labelsContainsKey exclusion k = true) :
    NodeFilters.topology request item = .ok false ∧
      ∀ items : List NodeItem, items.filter (acceptsNode request) = [] := by
  obtain ⟨t, htop, hnode⟩ := ht
  obtain ⟨k, hki, hke⟩ := hk
  have hshared : inclusion.any (fun kv => labelsContainsKey exclusion kv.1) = true := by
    unfold labelsContainsKey at hki
    rw [List.any_eq_true] at hki ⊢
    obtain ⟨kv, hkv, hbeq⟩ := hki
    refine ⟨kv, hkv, ?_⟩
    rw [eq_of_beq hbeq]
    exact hke
  have hfilter : ∀ it : NodeItem, NodeFilters.topology request it = .ok false := by
    intro it
    simp only [NodeFilters.topology, htop, hnode]
    rw [if_pos hshared]
  refine ⟨hfilter item, fun items => ?_⟩
  rw [List.filter_eq_nil_iff]
  intro it _
  unfold acceptsNode
  rw [hfilter it]
  simp

/-- Request for the C3 witness: inclusion and exclusion both `zone=eu`. -/
def c3Request : GetSuitableNodesContext :=
  { topology :=
      some { node := some (.labelled [("zone", "eu")] [("zone", "eu")]), pool := none },
    registry := c2Registry }

/-- Witness for C3 at a concrete conflicting topology. -/
theorem c3_conflicting_keys_reject_witness :
    NodeFilters.topology c3Request { nodeId := "node-a" } = .ok false ∧
      ∀ items : List NodeItem, items.filter (acceptsNode c3Request) = [] :=
  c3_conflicting_keys_reject c3Request { nodeId := "node-a" }
    [("zone", "eu")] [("zone", "eu")] ⟨_, rfl, rfl⟩ ⟨"zone", rfl, rfl⟩

/-- C9: a request whose node topology is the `Explicit` variant makes
`NodeFilters::topology` surface the unimplemented-feature failure (the
source's `todo!()`, embedded as the error case), rather than returning
`true` or `false` for the candidate. -/
theorem c9_explicit_topology_errors (request : GetSuitableNodesContext) (item : NodeItem)
    (allowedNodes : List NodeId)
    (ht : ∃ t, request.topology = some t ∧ t.node = some (.explicit allowedNodes)) :
    NodeFilters.topology request item = .error .todoUnimplemented ∧
      ∀ b : Bool, NodeFilters.topology request item ≠ .ok b := by
  obtain ⟨t, htop, hnode⟩ := ht
  have h : NodeFilters.topology request item = .error .todoUnimplemented := by
    simp only [NodeFilters.topology, htop, hnode]
  exact ⟨h, fun b hb => by rw [h] at hb; cases hb⟩

/-- Request for the C9 witness: an `Explicit` node topology. -/
def c9Request : GetSuitableNodesContext :=
  { topology := some { node := some (.explicit ["node-a"]), pool := none },
    registry := c2Registry }

/-- Witness for C9 at a concrete explicit topology. -/
theorem c9_explicit_topology_errors_witness :
    NodeFilters.topology c9Request { nodeId := "node-a" } = .error .todoUnimplemented ∧
      ∀ b : Bool, NodeFilters.topology c9Request { nodeId := "node-a" } ≠ .ok b :=
  c9_explicit_topology_errors c9Request { nodeId := "node-a" } ["node-a"] ⟨_, rfl, rfl⟩

/-- C10: with a non-empty `Labelled` pool-topology inclusion map,
`PoolBaseFilters::topology` rejects every pool whose spec is missing from
the registry and every pool whose spec carries no labels at all. -/
theorem c10_pool_topology_rejects_unlabelled (request : GetSuitablePoolsContext)
    (item : PoolItem) (inclusion exclusion : Labels)
    (ht : ∃ t, request.topology = some t ∧ t.pool = some (.labelled inclusion exclusion))
    (hinc : inclusion ≠ [])
    (hspec : request.registry.pool item.pool.id = none ∨
      ∃ spec, request.registry.pool item.pool.id = some spec ∧ spec.labels = none) :
    PoolBaseFilters.topology request item = false := by
  obtain ⟨t, htop, hpool⟩ := ht
  have hne : (!inclusion.isEmpty) = true := by
    cases inclusion with
    | nil => exact absurd rfl hinc
    | cons kv kvs => rfl
  simp only [PoolBaseFilters.topology, htop, hpool]
  rw [if_pos hne]
  rcases hspec with hnone | ⟨spec, hsome, hlabels⟩
  · rw [hnone]
  · rw [hsome]
    simp only [hlabels]

/-- Request for the C10 witness: pool inclusion `zone=eu`, a registry
holding one pool spec without labels. -/
def c10Request : GetSuitablePoolsContext :=
  { size := 10, thin := true, moveRepl := none,
    topology :=
      some { node := none, pool := some (.labelled [("zone", "eu")] []) },
    registry :=
      { nodeSpecs := [], poolSpecs := [{ id := "pool-1", labels := none }],
        volumeDataNodes := [] } }

/-- Item for the C10 witness: a pool whose registry spec has no labels. -/
def c10Item : PoolItem :=
  { pool := { node := "node-a", id := "pool-1", status := .online,
              capacity := 100, committed := 0, freeSpace := 100 } }

/-- Witness for C10 at a concrete unlabelled pool. -/
theorem c10_pool_topology_rejects_unlabelled_witness :
    PoolBaseFilters.topology c10Request c10Item = false :=
  c10_pool_topology_rejects_unlabelled c10Request c10Item [("zone", "eu")] []
    ⟨_, rfl, rfl⟩ (by simp)
    (Or.inr ⟨{ id := "pool-1", labels := none }, rfl, rfl⟩)

/-- C7: on an HTTP 422 response from `put_node_pool` (pool already exists),
`create_or_import` patches the CR status to `cr_state = Created` with
observed pool state `Unknown`, requeues after the configured interval,
posts no event at all (in particular no Warning or Critical one), and
returns successfully. -/
theorem c7_create_already_exists (env : CreateEnv)
    (hput : env.putPool = .error (.response 422))
    (hpatch : env.patchOk = true) :
    create_or_import env =
      { patches := [DiskPoolStatus.markUnknown], events := [],
        result := .ok (.requeue env.interval) } ∧
      DiskPoolStatus.markUnknown.cr_state = .created ∧
      DiskPoolStatus.markUnknown.pool_status = some .unknown := by
  refine ⟨?_, rfl, rfl⟩
  simp only [create_or_import, hput, hpatch]
  rfl

/-- Environment for the C7 witness: `put_node_pool` answers 422, the patch
succeeds, the interval is 30 seconds. -/
def c7Env : CreateEnv :=
  { putPool := .error (.response 422), blockDevices := .ok [],
    getPool := .ok { state := none }, disks := ["aio:///dev/sda"],
    interval := 30, patchOk := true, normalizeDisk := fun s => s }

/-- Witness for C7 at a concrete 422 environment. -/
theorem c7_create_already_exists_witness :
    create_or_import c7Env =
      { patches := [DiskPoolStatus.markUnknown], events := [],
        result := .ok (.requeue c7Env.interval) } ∧
      DiskPoolStatus.markUnknown.cr_state = .created ∧
      DiskPoolStatus.markUnknown.pool_status = some .unknown :=
  c7_create_already_exists c7Env rfl rfl

/-- Helper for C8: a notify trace creates at most one event carrying a
given message when the message is not yet in the dedup state, and none
when it already is. -/
theorem runNotify_message_count (calls : List NotifyCall) :
    ∀ (eventInfo : List String) (m : String),
      ((runNotify eventInfo calls).2.filter (fun e => e.message == m)).length ≤
        (if m ∈ eventInfo then 0 else 1) := by
  induction calls with
  | nil =>
    intro eventInfo m
    simp [runNotify]
  | cons c cs ih =>
    intro eventInfo m
    by_cases hc : c.message ∈ eventInfo
    · have hcb : eventInfo.contains c.message = true := by simpa using hc
      simp only [runNotify, k8s_notify]
      rw [if_pos hcb]
      simpa using ih eventInfo m
    · have hcb : ¬ (eventInfo.contains c.message = true) := by simpa using hc
      simp only [runNotify, k8s_notify]
      rw [if_neg hcb]
      by_cases hm : c.message = m
      · subst hm
        rw [if_neg hc]
        have h0 : ((runNotify (eventInfo ++ [c.message]) cs).2.filter
            (fun e => e.message == c.message)).length = 0 := by
          have hrest := ih (eventInfo ++ [c.message]) c.message
          rw [if_pos (by simp)] at hrest
          omega
        simp [List.filter_cons, h0]
      · have hpev :
            ((⟨c.action, c.reason, c.message, c.type_⟩ : K8sEvent).message == m) = false := by
          simpa using hm
        by_cases hme : m ∈ eventInfo
        · rw [if_pos hme]
          have hrest := ih (eventInfo ++ [c.message]) m
          rw [if_pos (List.mem_append_left _ hme)] at hrest
          simpa [List.filter_cons, hpev] using hrest
        · rw [if_neg hme]
          have hne2 : m ∉ eventInfo ++ [c.message] := by
            simp only [List.mem_append, List.mem_singleton]
            rintro (h | h)
            · exact hme h
            · exact hm h.symm
          have hrest := ih (eventInfo ++ [c.message]) m
          rw [if_neg hne2] at hrest
          simpa [List.filter_cons, hpev] using hrest

/-- C8: within one context's lifetime (the dedup state starts empty when
the `ResourceContext` is built), any sequence of `k8s_notify` calls
creates at most one Kubernetes event per distinct message string,
whatever the action, reason and type arguments of the calls are. -/
theorem c8_at_most_one_event_per_message (calls : List NotifyCall) (m : String) :
    ((runNotify [] calls).2.filter (fun e => e.message == m)).length ≤ 1 := by
  have h := runNotify_message_count calls [] m
  simpa using h

end Mayastor
